import Mathlib

/-!
# Verification of geo-mapper-YQ against its specification

Shallow embedding of `src/geomapper/geomapper.py` and `src/geomapper/config.py`.

Modelling conventions:
* Python floats are modelled as `ℚ` (the claims under scrutiny are about data
  flow and control flow, not floating-point rounding).
* Protobuf messages (`SaeMessage` and its nested messages from
  `visionapi_yq.messages_pb2`) are modelled as Lean structures; a protobuf
  map field is an association list; the optional sub-message
  `geo_coordinate` is an `Option` (absent = unset, as in proto3 sub-message
  presence).  `_unpack_proto` / `_pack_proto` are protobuf (de)serialization
  and are modelled as the identity at the message level: all claims are
  stated on decoded messages.
* Python exceptions escaping `GeoMapper.get` are modelled with `Except`:
  `get` either returns a message (`.ok`) or raises (`.error`).
* The external `cameratransform` camera object is modelled as a structure
  holding exactly what `get` reads from it: the two image-dimension
  parameters and the `gpsFromImage` method.  The external `shapely` polygon
  is modelled as its containment predicate.
-/

namespace GeoMapperYQ

/-- Normalized bounding box of a detection (fields of the protobuf
`BoundingBox` message read by `geomapper.py`). -/
structure BoundingBox where
  min_x : ℚ
  min_y : ℚ
  max_x : ℚ
  max_y : ℚ
deriving DecidableEq

/-- The protobuf `GeoCoordinate` sub-message: latitude and longitude. -/
structure GeoCoordinate where
  latitude : ℚ
  longitude : ℚ
deriving DecidableEq

/-- One detection snapshot: bounding box, class id, object id and the
mutable geo-coordinate, `none` while unset. -/
structure Detection where
  bounding_box : BoundingBox
  class_id : ℕ
  object_id : List ℕ
  geo_coordinate : Option GeoCoordinate
deriving DecidableEq

/-- A tracklet: the ordered history of detection snapshots
(`detections_info`). -/
structure Tracklet where
  detections_info : List Detection
deriving DecidableEq

/-- The per-camera map from track id to tracklet
(`trajectory.cameras[cam_id].tracklets`), as an association list. -/
structure TrackletsByCamera where
  tracklets : List (String × Tracklet)
deriving DecidableEq

/-- The trajectory: a map from camera id to its tracklets. -/
structure Trajectory where
  cameras : List (String × TrackletsByCamera)
deriving DecidableEq

/-- The frame descriptor; `get` reads only `source_id` from it. -/
structure Frame where
  source_id : String
deriving DecidableEq

/-- The decoded scene message consumed and produced by `GeoMapper.get`. -/
structure SaeMessage where
  frame : Frame
  trajectory : Trajectory
deriving DecidableEq

/-- Modelled from the spec: the typed failure of the CoordinateProjector
(the external `cameratransform` library, not part of src/): projection
fails when the computed camera ray does not intersect the target
horizontal plane. -/
inductive ProjectionError where
  | rayDoesNotIntersect
deriving DecidableEq

/-- Decidable equality of `Except` values, used to evaluate `GeoMapper.get`
on concrete fixtures. -/
instance {e a : Type} [DecidableEq e] [DecidableEq a] : DecidableEq (Except e a) := fun x y =>
  match x, y with
  | .ok v, .ok w => if h : v = w then .isTrue (by rw [h]) else .isFalse (by simp [h])
  | .error v, .error w => if h : v = w then .isTrue (by rw [h]) else .isFalse (by simp [h])
  | .ok _, .error _ => .isFalse (by simp)
  | .error _, .ok _ => .isFalse (by simp)

/-- A Python exception escaping `GeoMapper.get`. -/
inductive GetError where
  /-- Python `AttributeError`: attribute access on `None` (geomapper.py line 55
  when the camera lookup missed) or on a pydantic model that does not
  define the attribute (geomapper.py line 68 reading
  `self._config.object_center_elevation_m`, a field `GeoMapperConfig`
  does not declare). -/
  | attributeError
  /-- Python `IndexError`: `detections_info[-1]` on an empty history. -/
  | indexError
  /-- A `ProjectionError` raised by the projector and not caught by `get`
  (there is no try/except around the `gpsFromImage` call). -/
  | projection (e : ProjectionError)
deriving DecidableEq

/-- The calibrated camera object `ct.Camera`, reduced to exactly what
`GeoMapper.get` reads from it: `image_width_px` and `image_height_px`
(through `camera.parameters.parameters[...]`), and the `gpsFromImage`
method.  `gpsFromImage x y z` is the external projection of pixel
`(x, y)` onto the plane at height `Z = z`, returning `(lat, lon)` or a
`ProjectionError` (the failure mode is modelled from the spec, see
`ProjectionError`). -/
structure Camera where
  image_width_px : ℚ
  image_height_px : ℚ
  gpsFromImage : ℚ → ℚ → ℚ → Except ProjectionError (ℚ × ℚ)

/-- The external `shapely` polygon, reduced to its containment predicate:
`containsPt lon lat` models `polygon.contains(ShapelyPoint(lon, lat))`
(note `geomapper.py` builds the point as `ShapelyPoint(lon, lat)`). -/
structure Polygon where
  containsPt : ℚ → ℚ → Bool

/-- The mutable state a constructed `GeoMapper` instance holds when `get`
runs: the `_cameras` and `_mapping_areas` dictionaries built by `_setup`,
plus the object-center elevation that `get` reads off `self._config`
(geomapper.py line 68).  `config.py` does not actually declare that
field — claim C6 — so the main embedding `GeoMapper.get` takes it as
given here, and `GeoMapper.getOverConfig` below models the faithful
behaviour over `GeoMapperConfig`. -/
structure GeoMapperState where
  cameras : List (String × Camera)
  mapping_areas : List (String × Polygon)
  object_center_elevation_m : ℚ

/-- The `Point` named tuple of geomapper.py. -/
structure Point where
  x : ℚ
  y : ℚ
deriving DecidableEq

/-- Embeds `GeoMapper._get_center(bbox, image_width_px, image_height_px)`
(geomapper.py lines 85-90): the declared formula scales x by the
`image_width_px` PARAMETER and y by the `image_height_px` PARAMETER.
(The call site in `get`, line 67, passes the two actual image dimensions
in swapped order; see `GeoMapper.get` below.) -/
def get_center (bbox : BoundingBox) (image_width_px image_height_px : ℚ) : Point :=
  { x := (bbox.min_x + bbox.max_x) * image_width_px / 2
    y := (bbox.min_y + bbox.max_y) * image_height_px / 2 }

/-- Embeds `GeoMapper._is_filtered(cam_id, lat, lon)` (geomapper.py lines 92-95):
if the camera has a mapping area, return `not contains(Point(lon, lat))`;
otherwise the Python function falls off the end and returns `None`,
modelled as `Option.none`.  At the call site `if self._is_filtered(...)`
Python truthiness makes `None` behave as `false`.  The method reads only
`self._mapping_areas`, which is passed explicitly here. -/
def is_filtered (mapping_areas : List (String × Polygon)) (cam_id : String)
    (lat lon : ℚ) : Option Bool :=
  match mapping_areas.lookup cam_id with
  | some poly => some (! poly.containsPt lon lat)
  | none => none

/-- Replace the value under key `k` in an association list, inserting the
entry if absent (protobuf map semantics: `cameras[cam_id]` materialises
the entry). -/
def updateEntry (k : String) (v : α) : List (String × α) → List (String × α)
  | [] => [(k, v)]
  | (k', v') :: rest => if k' = k then (k, v) :: rest else (k', v') :: updateEntry k v rest

/-- One iteration of the loop body of `GeoMapper.get` (geomapper.py lines
64-74) on a single tracklet:
* `detections_info[-1]` raises `IndexError` on an empty history;
* the pixel center is computed by `self._get_center(detection.bounding_box,
  image_height_px, image_width_px)` — note the call site passes the image
  HEIGHT into the `image_width_px` parameter and vice versa (geomapper.py
  line 67);
* evaluating the keyword argument `Z=elevE` may itself raise (claim C6);
* `gpsFromImage` may raise a `ProjectionError`, which no handler catches;
* if `_is_filtered` is truthy the tracklet is left untouched (`continue`);
* otherwise the two consecutive assignments
  `detection.geo_coordinate.latitude = lat` and
  `detection.geo_coordinate.longitude = lon` (no failure point between
  them, so they are observationally one simultaneous write) set the last
  snapshot's geo-coordinate. -/
def processTracklet (cam : Camera) (mapping_areas : List (String × Polygon))
    (cam_id : String) (elevE : Except GetError ℚ) (t : Tracklet) :
    Except GetError Tracklet :=
  match t.detections_info.getLast? with
  | none => .error .indexError
  | some detection =>
    let center := get_center detection.bounding_box cam.image_height_px cam.image_width_px
    match elevE with
    | .error e => .error e
    | .ok z =>
      match cam.gpsFromImage center.x center.y z with
      | .error e => .error (.projection e)
      | .ok (lat, lon) =>
        if (is_filtered mapping_areas cam_id lat lon).getD false then
          .ok t
        else
          .ok { detections_info :=
                  t.detections_info.dropLast ++
                    [{ detection with geo_coordinate := some ⟨lat, lon⟩ }] }

/-- The `for` loop of `GeoMapper.get` over the tracklets of the source
camera.  A raised exception aborts the whole call (the partially mutated
message is never returned). -/
def processTracklets (cam : Camera) (mapping_areas : List (String × Polygon))
    (cam_id : String) (elevE : Except GetError ℚ) :
    List (String × Tracklet) → Except GetError (List (String × Tracklet))
  | [] => .ok []
  | (tid, t) :: rest =>
    match processTracklet cam mapping_areas cam_id elevE t with
    | .error e => .error e
    | .ok t' =>
      match processTracklets cam mapping_areas cam_id elevE rest with
      | .error e => .error e
      | .ok rest' => .ok ((tid, t') :: rest')

/-- Embeds `GeoMapper.get` (geomapper.py lines 50-83), parametrised by the result
`elevE` of evaluating `self._config.object_center_elevation_m`:
1. decode the message (identity at this level) and read
   `cam_id = sae_msg.frame.source_id`;
2. `camera = self._cameras.get(cam_id)`; the very next statements read
   `camera.parameters.parameters['image_height_px']` and `...width...`,
   BEFORE the `if camera is None` test, so a missing camera raises
   `AttributeError` and the `return input_proto` branch on line 57 is
   dead code;
3. loop over `sae_msg.trajectory.cameras[cam_id].tracklets` (protobuf map
   access materialises an empty entry when absent) applying
   `processTracklet`;
4. re-encode and return the message. -/
def getAux (cameras : List (String × Camera)) (mapping_areas : List (String × Polygon))
    (elevE : Except GetError ℚ) (sae_msg : SaeMessage) :
    Except GetError SaeMessage :=
  let cam_id := sae_msg.frame.source_id
  match cameras.lookup cam_id with
  | none => .error .attributeError
  | some camera =>
    let tbc := (sae_msg.trajectory.cameras.lookup cam_id).getD ⟨[]⟩
    match processTracklets camera mapping_areas cam_id elevE tbc.tracklets with
    | .error e => .error e
    | .ok newTracklets =>
      .ok { sae_msg with
              trajectory :=
                ⟨updateEntry cam_id ⟨newTracklets⟩ sae_msg.trajectory.cameras⟩ }

/-- The entry point `GeoMapper.get` as geomapper.py wrote it, granting geomapper.py its
assumption that the configuration carries `object_center_elevation_m`
(the value held in `GeoMapperState`). -/
def GeoMapper.get (st : GeoMapperState) (sae_msg : SaeMessage) :
    Except GetError SaeMessage :=
  getAux st.cameras st.mapping_areas (.ok st.object_center_elevation_m) sae_msg

/-! ## Embedding of `src/geomapper/config.py` -/

/-- The `visionlib.pipeline.settings.LogLevel` values used by the config. -/
inductive LogLevel where
  | debug | info | warning | error
deriving DecidableEq

/-- Embeds `RedisConfig` (config.py lines 9-13). -/
structure RedisConfig where
  host : String
  port : ℕ
  input_stream_prefix : String
  output_stream_prefix : String
deriving DecidableEq

/-- Embeds `CameraConfig` (config.py lines 15-32).  Exactly these fields are
declared; Python `= None` defaults become `Option`, numeric `= 0`
defaults stay plain.  In particular there is NO `cam_config_path`, NO
`mapping_area` and NO `remove_unmapped_detections` field, although
`geomapper.py` refers to the first two in `_setup` and to the third in
its commented-out removal block. -/
structure CameraConfig where
  stream_id : String
  passthrough : Bool
  focallength_mm : Option ℚ := none
  sensor_height_mm : Option ℚ := none
  sensor_width_mm : Option ℚ := none
  view_x_deg : Option ℚ := none
  view_y_deg : Option ℚ := none
  image_width_px : Option ℤ := none
  image_height_px : Option ℤ := none
  elevation_m : Option ℚ := none
  tilt_deg : Option ℚ := none
  pos_lat : Option ℚ := none
  pos_lon : Option ℚ := none
  heading_deg : Option ℚ := none
  abc_distortion_a : ℚ := 0
  abc_distortion_b : ℚ := 0
  abc_distortion_c : ℚ := 0
deriving DecidableEq

/-- Embeds `GeoMapperConfig` (config.py lines 34-39): it declares `log_level`,
`redis` and `cameras`, and nothing else.  There is no
`object_center_elevation_m` field. -/
structure GeoMapperConfig where
  log_level : LogLevel
  redis : RedisConfig
  cameras : List CameraConfig
deriving DecidableEq

/-- Evaluating `self._config.object_center_elevation_m` (geomapper.py
line 68) against the actual `GeoMapperConfig` of config.py: the pydantic
model declares no such field, so the attribute access raises
`AttributeError` for every configuration value. -/
def readObjectCenterElevation (_cfg : GeoMapperConfig) : Except GetError ℚ :=
  .error .attributeError

/-- Variant of `GeoMapper.get` with the elevation read faithfully off a
`GeoMapperConfig` value (config.py as it stands), instead of granting
geomapper.py its assumed field. `cameras` / `mapping_areas` are the
dictionaries held by the instance. -/
def GeoMapper.getOverConfig (cfg : GeoMapperConfig)
    (cameras : List (String × Camera)) (mapping_areas : List (String × Polygon))
    (sae_msg : SaeMessage) : Except GetError SaeMessage :=
  getAux cameras mapping_areas (readObjectCenterElevation cfg) sae_msg

/-! ## Concrete fixtures

Shared concrete values used by counterexamples and witnesses: a message
for camera `"stream1"` with one tracklet holding one detection (full-frame
bounding box, geo-coordinate unset), a camera whose projector simply
reports the pixel it was handed (making the center `get` passes to the
projector observable in the output), and a camera whose projector always
fails. -/

/-- A detection with a full-frame normalized bounding box and unset
geo-coordinate. -/
def exampleDetection : Detection :=
  { bounding_box := { min_x := 0, min_y := 0, max_x := 1, max_y := 1 }
    class_id := 2
    object_id := [7]
    geo_coordinate := none }

/-- The snapshot `exampleDetection` after a write of the geo-coordinate `(540, 960)`. -/
def annotatedDetection : Detection :=
  { exampleDetection with geo_coordinate := some ⟨540, 960⟩ }

/-- A message from camera `"stream1"` with one tracklet `"track1"` holding
only `exampleDetection`. -/
def exampleMsg : SaeMessage :=
  { frame := ⟨"stream1"⟩
    trajectory := ⟨[("stream1", ⟨[("track1", ⟨[exampleDetection]⟩)]⟩)]⟩ }

/-- The message `exampleMsg` with the single detection annotated with `(540, 960)`. -/
def annotatedExampleMsg : SaeMessage :=
  { frame := ⟨"stream1"⟩
    trajectory := ⟨[("stream1", ⟨[("track1", ⟨[annotatedDetection]⟩)]⟩)]⟩ }

/-- A 1920×1080 camera whose projector reports the pixel it receives:
`gpsFromImage x y z = .ok (x, y)`, so the returned latitude/longitude
reveal the pixel center `get` passed in. -/
def recordingCamera : Camera :=
  { image_width_px := 1920
    image_height_px := 1080
    gpsFromImage := fun x y _ => .ok (x, y) }

/-- A 1920×1080 camera whose projector always fails (the camera ray never
intersects the target plane). -/
def failingCamera : Camera :=
  { image_width_px := 1920
    image_height_px := 1080
    gpsFromImage := fun _ _ _ => .error .rayDoesNotIntersect }

/-- A mapping-area polygon containing no point at all: every projected
coordinate falls outside it. -/
def excludeAllPolygon : Polygon := ⟨fun _ _ => false⟩

/-- State with `"stream1"` calibrated (recording projector) and no mapping
area. -/
def exampleStateNoArea : GeoMapperState :=
  ⟨[("stream1", recordingCamera)], [], 0⟩

/-- State with `"stream1"` calibrated (recording projector) and a mapping
area that excludes every point. -/
def exampleStateExcludeAll : GeoMapperState :=
  ⟨[("stream1", recordingCamera)], [("stream1", excludeAllPolygon)], 0⟩

/-- State with `"stream1"` calibrated with the always-failing projector and
no mapping area. -/
def exampleStateFailing : GeoMapperState :=
  ⟨[("stream1", failingCamera)], [], 0⟩

/-- A camera entry configured `passthrough = true` for `"stream1"`. -/
def passthroughCamConf : CameraConfig :=
  { stream_id := "stream1", passthrough := true }

/-- A camera entry configured `passthrough = false` for `"stream1"`. -/
def calibratedCamConf : CameraConfig :=
  { stream_id := "stream1", passthrough := false }

/-- A configuration value faithful to config.py, holding one calibrated
camera entry. -/
def exampleConfig : GeoMapperConfig :=
  { log_level := .warning
    redis := ⟨"localhost", 6379, "objecttracker", "geomapper"⟩
    cameras := [calibratedCamConf] }

end GeoMapperYQ

namespace GeoMapperYQ

/-! ## General lemmas about the embedding -/

/-- Looking up the written key after `updateEntry` yields the new value. -/
theorem lookup_updateEntry_self (k : String) (v : α) :
    ∀ l : List (String × α), (updateEntry k v l).lookup k = some v
  | [] => by simp [updateEntry, List.lookup]
  | (k', v') :: rest => by
    by_cases h : k' = k
    · simp [updateEntry, h, List.lookup]
    · have hb : (k == k') = false := beq_eq_false_iff_ne.mpr (Ne.symm h)
      simp [updateEntry, h, List.lookup, hb, lookup_updateEntry_self k v rest]

/-- Looking up any other key after `updateEntry` is unchanged. -/
theorem lookup_updateEntry_ne (k : String) (v : α) (k' : String) (hk : k' ≠ k) :
    ∀ l : List (String × α), (updateEntry k v l).lookup k' = l.lookup k'
  | [] => by simp [updateEntry, List.lookup, beq_eq_false_iff_ne.mpr hk]
  | (k'', v'') :: rest => by
    by_cases h : k'' = k
    · subst h
      simp [updateEntry, List.lookup, beq_eq_false_iff_ne.mpr hk]
    · simp [updateEntry, h, List.lookup, lookup_updateEntry_ne k v k' hk rest]

/-- Unfolds `processTracklet` with its local `center` inlined. -/
theorem processTracklet_eq (cam : Camera) (areas : List (String × Polygon))
    (cid : String) (elevE : Except GetError ℚ) (t : Tracklet) :
    processTracklet cam areas cid elevE t =
      match t.detections_info.getLast? with
      | none => .error .indexError
      | some detection =>
        match elevE with
        | .error e => .error e
        | .ok z =>
          match cam.gpsFromImage
              (get_center detection.bounding_box cam.image_height_px cam.image_width_px).x
              (get_center detection.bounding_box cam.image_height_px cam.image_width_px).y z with
          | .error e => .error (.projection e)
          | .ok (lat, lon) =>
            if (is_filtered areas cid lat lon).getD false then
              .ok t
            else
              .ok { detections_info :=
                      t.detections_info.dropLast ++
                        [{ detection with geo_coordinate := some ⟨lat, lon⟩ }] } := rfl

/-- Anatomy of a successful `processTracklet`: the history was nonempty,
the elevation read succeeded, the projection succeeded, and the tracklet
either was skipped unchanged (filtered) or got its last snapshot's
geo-coordinate written. -/
theorem processTracklet_ok_elim {cam : Camera} {areas : List (String × Polygon)}
    {cid : String} {elevE : Except GetError ℚ} {t t' : Tracklet}
    (h : processTracklet cam areas cid elevE t = .ok t') :
    ∃ d z lat lon,
      t.detections_info.getLast? = some d ∧
      elevE = .ok z ∧
      cam.gpsFromImage (get_center d.bounding_box cam.image_height_px cam.image_width_px).x
          (get_center d.bounding_box cam.image_height_px cam.image_width_px).y z
        = .ok (lat, lon) ∧
      (((is_filtered areas cid lat lon).getD false = true ∧ t' = t) ∨
       ((is_filtered areas cid lat lon).getD false = false ∧
        t'.detections_info =
          t.detections_info.dropLast ++ [{ d with geo_coordinate := some ⟨lat, lon⟩ }])) := by
  rcases hd : t.detections_info.getLast? with _ | d
  · rw [processTracklet_eq, hd] at h
    simp at h
  · rcases elevE with e | z
    · rw [processTracklet_eq, hd] at h
      simp at h
    · rcases hgps : cam.gpsFromImage
          (get_center d.bounding_box cam.image_height_px cam.image_width_px).x
          (get_center d.bounding_box cam.image_height_px cam.image_width_px).y z
        with e | ⟨lat, lon⟩
      · rw [processTracklet_eq, hd] at h
        dsimp only at h
        rw [hgps] at h
        simp at h
      · rw [processTracklet_eq, hd] at h
        dsimp only at h
        rw [hgps] at h
        dsimp only at h
        by_cases hfilt : (is_filtered areas cid lat lon).getD false
        · rw [if_pos hfilt] at h
          refine ⟨d, z, lat, lon, rfl, rfl, hgps, Or.inl ⟨hfilt, ?_⟩⟩
          cases h
          rfl
        · rw [if_neg hfilt] at h
          refine ⟨d, z, lat, lon, rfl, rfl, hgps, Or.inr ⟨by simpa using hfilt, ?_⟩⟩
          cases h
          rfl

end GeoMapperYQ

namespace GeoMapperYQ

/-- A successful `processTracklet` never changes the earlier snapshots
(`dropLast`) nor the length of the history. -/
theorem processTracklet_ok_preserves {cam : Camera} {areas : List (String × Polygon)}
    {cid : String} {elevE : Except GetError ℚ} {t t' : Tracklet}
    (h : processTracklet cam areas cid elevE t = .ok t') :
    t'.detections_info.dropLast = t.detections_info.dropLast ∧
    t'.detections_info.length = t.detections_info.length := by
  obtain ⟨d, z, lat, lon, hd, -, -, hcase⟩ := processTracklet_ok_elim h
  rcases hcase with ⟨-, rfl⟩ | ⟨-, hw⟩
  · exact ⟨rfl, rfl⟩
  · have hne : t.detections_info ≠ [] := by
      intro hnil
      rw [hnil] at hd
      simp at hd
    have hpos : 0 < t.detections_info.length := List.length_pos.mpr hne
    constructor
    · rw [hw, List.dropLast_concat]
    · rw [hw]
      simp [List.length_dropLast]
      omega

/-- A successful `processTracklet` maps each snapshot position either to
the unchanged snapshot or to the snapshot with only its geo-coordinate
written (both components at once). -/
theorem processTracklet_ok_idx_det {cam : Camera} {areas : List (String × Polygon)}
    {cid : String} {elevE : Except GetError ℚ} {t t' : Tracklet}
    (h : processTracklet cam areas cid elevE t = .ok t') (j : ℕ) (d d' : Detection)
    (hj : t.detections_info[j]? = some d) (hj' : t'.detections_info[j]? = some d') :
    d' = d ∨ ∃ lat lon, d' = { d with geo_coordinate := some ⟨lat, lon⟩ } := by
  obtain ⟨dl, z, lat, lon, hd, -, -, hcase⟩ := processTracklet_ok_elim h
  rcases hcase with ⟨-, rfl⟩ | ⟨-, hw⟩
  · left
    rw [hj] at hj'
    exact (Option.some.inj hj').symm
  · obtain ⟨xs, hxs⟩ := List.getLast?_eq_some_iff.mp hd
    rw [hxs, List.dropLast_concat] at hw
    rw [hxs] at hj
    rw [hw] at hj'
    rcases lt_trichotomy j xs.length with hlt | heq | hgt
    · rw [List.getElem?_append, if_pos hlt] at hj hj'
      left
      rw [hj] at hj'
      exact (Option.some.inj hj').symm
    · subst heq
      rw [List.getElem?_concat_length] at hj hj'
      right
      exact ⟨lat, lon, by
        cases Option.some.inj hj'
        cases Option.some.inj hj
        rfl⟩
    · rw [List.getElem?_eq_none (by simp; omega)] at hj
      simp at hj

/-- A successful loop run yields a positionally matching list: equal
length, track ids preserved, each tracklet a successful
`processTracklet` image. -/
theorem processTracklets_ok_idx {cam : Camera} {areas : List (String × Polygon)}
    {cid : String} {elevE : Except GetError ℚ} :
    ∀ {l l' : List (String × Tracklet)},
      processTracklets cam areas cid elevE l = .ok l' →
      l'.length = l.length ∧
      ∀ (i : ℕ) (tid : String) (t : Tracklet), l[i]? = some (tid, t) →
        ∃ t', processTracklet cam areas cid elevE t = .ok t' ∧ l'[i]? = some (tid, t')
  | [], l', h => by
    rw [processTracklets] at h
    cases h
    exact ⟨rfl, fun i tid t hi => by simp at hi⟩
  | (tid0, t0) :: rest, l', h => by
    rw [processTracklets] at h
    rcases h0 : processTracklet cam areas cid elevE t0 with e | t0'
    · rw [h0] at h
      simp at h
    · rw [h0] at h
      dsimp only at h
      rcases hr : processTracklets cam areas cid elevE rest with e | rest'
      · rw [hr] at h
        simp at h
      · rw [hr] at h
        dsimp only at h
        cases h
        obtain ⟨hlen, hidx⟩ := processTracklets_ok_idx hr
        refine ⟨by simp [hlen], ?_⟩
        intro i tid t hi
        cases i with
        | zero =>
          rw [List.getElem?_cons_zero] at hi
          obtain ⟨h1, h2⟩ := Prod.mk.injEq .. ▸ Option.some.inj hi
          subst h1
          subst h2
          exact ⟨t0', h0, by rw [List.getElem?_cons_zero]⟩
        | succ n =>
          rw [List.getElem?_cons_succ] at hi
          obtain ⟨t', ht'⟩ := hidx n tid t hi
          exact ⟨t', ht'.1, by rw [List.getElem?_cons_succ]; exact ht'.2⟩

/-- Unfolds `getAux` with its local variables inlined. -/
theorem getAux_eq (cameras : List (String × Camera)) (mapping_areas : List (String × Polygon))
    (elevE : Except GetError ℚ) (sae_msg : SaeMessage) :
    getAux cameras mapping_areas elevE sae_msg =
      match cameras.lookup sae_msg.frame.source_id with
      | none => .error .attributeError
      | some camera =>
        match processTracklets camera mapping_areas sae_msg.frame.source_id elevE
            ((sae_msg.trajectory.cameras.lookup sae_msg.frame.source_id).getD ⟨[]⟩).tracklets with
        | .error e => .error e
        | .ok newTracklets =>
          .ok { sae_msg with
                  trajectory :=
                    ⟨updateEntry sae_msg.frame.source_id ⟨newTracklets⟩
                      sae_msg.trajectory.cameras⟩ } := rfl

/-- Anatomy of a successful `GeoMapper.get`: the camera lookup hit, the
loop succeeded, and the output is the input with the source camera's
tracklet map replaced by the loop's output. -/
theorem get_ok_elim {st : GeoMapperState} {msg out : SaeMessage}
    (h : GeoMapper.get st msg = .ok out) :
    ∃ cam l',
      st.cameras.lookup msg.frame.source_id = some cam ∧
      processTracklets cam st.mapping_areas msg.frame.source_id
          (.ok st.object_center_elevation_m)
          ((msg.trajectory.cameras.lookup msg.frame.source_id).getD ⟨[]⟩).tracklets
        = .ok l' ∧
      out = { msg with
                trajectory :=
                  ⟨updateEntry msg.frame.source_id ⟨l'⟩ msg.trajectory.cameras⟩ } := by
  rw [GeoMapper.get, getAux_eq] at h
  rcases hcam : st.cameras.lookup msg.frame.source_id with _ | cam
  · rw [hcam] at h
    simp at h
  · rw [hcam] at h
    dsimp only at h
    rcases hpt : processTracklets cam st.mapping_areas msg.frame.source_id
        (.ok st.object_center_elevation_m)
        ((msg.trajectory.cameras.lookup msg.frame.source_id).getD ⟨[]⟩).tracklets with e | l'
    · rw [hpt] at h
      simp at h
    · rw [hpt] at h
      dsimp only at h
      cases h
      exact ⟨cam, l', rfl, hpt, rfl⟩

end GeoMapperYQ

namespace GeoMapperYQ

/-! ## The claims -/

/-- Claim C1: FAILS on the code (the order-of-checks defect the spec's §9
itself records).  For every message whose `source_id` has no camera
entry, `get` dereferences `camera.parameters.parameters[...]` on `None`
(geomapper.py line 55) BEFORE the `if camera is None` check on line 57,
so it raises `AttributeError` instead of returning the input message
unchanged; the pass-through branch is dead code. -/
theorem C1_unknown_camera_raises (st : GeoMapperState) (msg : SaeMessage)
    (h : st.cameras.lookup msg.frame.source_id = none) :
    GeoMapper.get st msg = .error .attributeError := by
  rw [GeoMapper.get, getAux_eq, h]

/-- Claim C1, evaluated at a concrete input: with no camera configured at
all, processing `exampleMsg` raises instead of passing it through. -/
theorem C1_unknown_camera_raises_witness :
    GeoMapper.get ⟨[], [], 0⟩ exampleMsg = .error .attributeError :=
  C1_unknown_camera_raises ⟨[], [], 0⟩ exampleMsg rfl

/-- Claim C2: FAILS on the code.  No line of geomapper.py reads the
`passthrough` flag: `_setup` (lines 40-44) registers a camera for every
entry with a calibration source regardless of the flag, and `get` only
consults the `_cameras` dictionary.  With `"stream1"` configured
`passthrough = true` yet holding a calibration, its message is projected
and its detection annotated — the output differs from the input. -/
theorem C2_passthrough_flag_ignored :
    passthroughCamConf.passthrough = true ∧
    passthroughCamConf.stream_id = exampleMsg.frame.source_id ∧
    GeoMapper.get exampleStateNoArea exampleMsg = .ok annotatedExampleMsg ∧
    annotatedExampleMsg ≠ exampleMsg := by
  refine ⟨rfl, rfl, ?_, ?_⟩
  · norm_num [GeoMapper.get, getAux, exampleStateNoArea, exampleMsg, annotatedExampleMsg,
      processTracklets, processTracklet, is_filtered, get_center, recordingCamera,
      exampleDetection, annotatedDetection, updateEntry, List.lookup]
  · simp [annotatedExampleMsg, exampleMsg, annotatedDetection, exampleDetection]

/-- Claim C3: FAILS on the code.  `remove_unmapped_detections` is honored
nowhere: `CameraConfig` (config.py lines 15-32) declares no such field,
and the only removal logic in `get` is commented out (geomapper.py lines
61, 76-81).  With a mapping area containing no point, the sole detection
projects outside the area, yet the output message still carries the
tracklet with that detection snapshot — `get` returns the message
unchanged instead of removing the snapshot. -/
theorem C3_unmapped_detection_not_removed :
    is_filtered exampleStateExcludeAll.mapping_areas "stream1" 540 960 = some true ∧
    GeoMapper.get exampleStateExcludeAll exampleMsg = .ok exampleMsg ∧
    ((exampleMsg.trajectory.cameras.lookup "stream1").getD ⟨[]⟩).tracklets.lookup "track1"
      = some ⟨[exampleDetection]⟩ := by
  refine ⟨rfl, ?_, rfl⟩
  norm_num [GeoMapper.get, getAux, exampleStateExcludeAll, exampleMsg,
    processTracklets, processTracklet, is_filtered, get_center, recordingCamera,
    excludeAllPolygon, exampleDetection, updateEntry, List.lookup]

/-- Claim C4: FAILS on the code.  The call site (geomapper.py line 67)
passes `(bbox, image_height_px, image_width_px)` into `_get_center`'s
parameter order `(bbox, image_width_px, image_height_px)` (line 86), so
the x component is scaled by the image HEIGHT and the y component by the
image WIDTH.  With a 1920×1080 camera and the full-frame box the center
handed to the projector is (540, 960) — observable in the output
geo-coordinate because the recording projector returns its pixel input
as (lat, lon) — while the claimed formula gives (960, 540). -/
theorem C4_center_scaling_swapped :
    GeoMapper.get exampleStateNoArea exampleMsg = .ok annotatedExampleMsg ∧
    annotatedDetection.geo_coordinate = some ⟨540, 960⟩ ∧
    get_center exampleDetection.bounding_box recordingCamera.image_width_px
        recordingCamera.image_height_px = ⟨960, 540⟩ ∧
    (⟨960, 540⟩ : Point) ≠ (⟨540, 960⟩ : Point) := by
  refine ⟨?_, rfl, ?_, ?_⟩
  · norm_num [GeoMapper.get, getAux, exampleStateNoArea, exampleMsg, annotatedExampleMsg,
      processTracklets, processTracklet, is_filtered, get_center, recordingCamera,
      exampleDetection, annotatedDetection, updateEntry, List.lookup]
  · norm_num [get_center, recordingCamera, exampleDetection]
  · intro h
    have := congrArg Point.x h
    norm_num at this

/-- Claim C5: FAILS on the code.  `get` wraps the `gpsFromImage` call in
no try/except (geomapper.py line 68), so a projector failure
(`ProjectionError`, modelled from the spec for the external
`cameratransform` projector) aborts the whole call and propagates to the
caller; no message — annotated or not — is returned. -/
theorem C5_projection_error_propagates :
    GeoMapper.get exampleStateFailing exampleMsg
      = .error (.projection .rayDoesNotIntersect) := by
  norm_num [GeoMapper.get, getAux, exampleStateFailing, exampleMsg,
    processTracklets, processTracklet, is_filtered, get_center, failingCamera,
    exampleDetection, updateEntry, List.lookup]

/-- Claim C6: FAILS on the code.  `GeoMapperConfig` (config.py lines
34-39) declares `log_level`, `redis` and `cameras` and nothing else — no
process-wide `object_center_elevation_m` — yet `get` reads
`self._config.object_center_elevation_m` (geomapper.py line 68).  Over
the configuration as declared, that attribute access raises
`AttributeError` before the projector is ever invoked. -/
theorem C6_elevation_constant_not_in_config :
    GeoMapper.getOverConfig exampleConfig [("stream1", recordingCamera)] [] exampleMsg
      = .error .attributeError := by
  norm_num [GeoMapper.getOverConfig, getAux, readObjectCenterElevation, exampleMsg,
    processTracklets, processTracklet, get_center, recordingCamera,
    exampleDetection, updateEntry, List.lookup]

end GeoMapperYQ

namespace GeoMapperYQ

/-- Claim C7: CONFIRMED.  For a camera with no mapping area configured,
`_is_filtered` returns `None` for every `(lat, lon)` — falsy at its call
site, so nothing is filtered — and consequently, in every message `get`
returns for such a camera, every tracklet's most recent detection
snapshot carries a written geo-coordinate (every successfully projected
detection is annotated; under a returned `.ok` all projections
succeeded). -/
theorem C7_no_area_unfiltered_and_annotated
    (st : GeoMapperState) (msg out : SaeMessage)
    (harea : st.mapping_areas.lookup msg.frame.source_id = none)
    (hok : GeoMapper.get st msg = .ok out) :
    (∀ lat lon : ℚ, is_filtered st.mapping_areas msg.frame.source_id lat lon = none) ∧
    ∀ p ∈ ((out.trajectory.cameras.lookup msg.frame.source_id).getD ⟨[]⟩).tracklets,
      ∃ d : Detection, p.2.detections_info.getLast? = some d ∧ d.geo_coordinate.isSome := by
  obtain ⟨cam, l', hcam, hpt, rfl⟩ := get_ok_elim hok
  refine ⟨fun lat lon => by rw [is_filtered, harea], ?_⟩
  intro p hp
  simp only [lookup_updateEntry_self, Option.getD_some] at hp
  obtain ⟨i, hil⟩ := List.mem_iff_getElem?.mp hp
  obtain ⟨hlen, hidx⟩ := processTracklets_ok_idx hpt
  have hlt : i < ((msg.trajectory.cameras.lookup msg.frame.source_id).getD ⟨[]⟩).tracklets.length := by
    rw [← hlen]
    exact (List.getElem?_eq_some_iff.mp hil).1
  obtain ⟨tid, t, hin⟩ :
      ∃ tid t, ((msg.trajectory.cameras.lookup msg.frame.source_id).getD ⟨[]⟩).tracklets[i]?
        = some (tid, t) := by
    rw [List.getElem?_eq_getElem hlt]
    exact ⟨_, _, rfl⟩
  obtain ⟨t', hok', hout⟩ := hidx i tid t hin
  rw [hil] at hout
  cases Option.some.inj hout
  obtain ⟨d, z, lat, lon, hd, -, -, hcase⟩ := processTracklet_ok_elim hok'
  rcases hcase with ⟨hf, -⟩ | ⟨-, hw⟩
  · rw [is_filtered, harea] at hf
    simp at hf
  · refine ⟨{ d with geo_coordinate := some ⟨lat, lon⟩ }, ?_, rfl⟩
    rw [hw]
    exact List.getLast?_concat _

/-- Claim C7 at a concrete input: no mapping area for `"stream1"`, the
filter reports `None` everywhere, and the single detection of the
returned message is annotated. -/
theorem C7_no_area_unfiltered_and_annotated_witness :
    (∀ lat lon : ℚ,
      is_filtered exampleStateNoArea.mapping_areas exampleMsg.frame.source_id lat lon = none) ∧
    ∀ p ∈ ((annotatedExampleMsg.trajectory.cameras.lookup
              exampleMsg.frame.source_id).getD ⟨[]⟩).tracklets,
      ∃ d : Detection, p.2.detections_info.getLast? = some d ∧ d.geo_coordinate.isSome :=
  C7_no_area_unfiltered_and_annotated exampleStateNoArea exampleMsg annotatedExampleMsg rfl
    (by norm_num [GeoMapper.get, getAux, exampleStateNoArea, exampleMsg, annotatedExampleMsg,
      processTracklets, processTracklet, is_filtered, get_center, recordingCamera,
      exampleDetection, annotatedDetection, updateEntry, List.lookup])

end GeoMapperYQ

namespace GeoMapperYQ

/-- Claim C8: CONFIRMED (and vacuously stronger: `get` preserves
outside-area detections for EVERY camera, the
`remove_unmapped_detections` flag being absent from `CameraConfig` and
never consulted).  If the last snapshot of a tracklet projects to a
coordinate outside the camera's mapping area, the returned message still
holds that tracklet unchanged at the same position: the snapshot is
present, its geo-coordinate is exactly the input's (unset stays unset)
and every other field is untouched. -/
theorem C8_outside_area_detection_preserved
    (st : GeoMapperState) (msg out : SaeMessage) (cam : Camera) (poly : Polygon)
    (i : ℕ) (tid : String) (t : Tracklet) (d : Detection) (lat lon : ℚ)
    (hcam : st.cameras.lookup msg.frame.source_id = some cam)
    (hpoly : st.mapping_areas.lookup msg.frame.source_id = some poly)
    (hok : GeoMapper.get st msg = .ok out)
    (hi : ((msg.trajectory.cameras.lookup msg.frame.source_id).getD ⟨[]⟩).tracklets[i]?
            = some (tid, t))
    (hd : t.detections_info.getLast? = some d)
    (hproj : cam.gpsFromImage
        (get_center d.bounding_box cam.image_height_px cam.image_width_px).x
        (get_center d.bounding_box cam.image_height_px cam.image_width_px).y
        st.object_center_elevation_m = .ok (lat, lon))
    (houtside : poly.containsPt lon lat = false) :
    ((out.trajectory.cameras.lookup msg.frame.source_id).getD ⟨[]⟩).tracklets[i]?
      = some (tid, t) := by
  obtain ⟨cam', l', hcam', hpt, rfl⟩ := get_ok_elim hok
  rw [hcam] at hcam'
  cases Option.some.inj hcam'
  obtain ⟨hlen, hidx⟩ := processTracklets_ok_idx hpt
  obtain ⟨t', hok', hout⟩ := hidx i tid t hi
  obtain ⟨d0, z0, lat0, lon0, hd0, hz0, hproj0, hcase⟩ := processTracklet_ok_elim hok'
  rw [hd] at hd0
  cases Option.some.inj hd0
  cases Except.ok.inj hz0
  rw [hproj] at hproj0
  obtain ⟨h1, h2⟩ := Prod.mk.injEq .. ▸ Except.ok.inj hproj0
  subst h1
  subst h2
  rcases hcase with ⟨-, rfl⟩ | ⟨hf, -⟩
  · simpa only [lookup_updateEntry_self, Option.getD_some] using hout
  · rw [is_filtered, hpoly] at hf
    simp [houtside] at hf

/-- Claim C8 at a concrete input: with the exclude-all mapping area, the
detection projecting to (540, 960) falls outside, and the returned
message still holds the tracklet with the unannotated snapshot. -/
theorem C8_outside_area_detection_preserved_witness :
    ((exampleMsg.trajectory.cameras.lookup exampleMsg.frame.source_id).getD ⟨[]⟩).tracklets[0]?
      = some ("track1", ⟨[exampleDetection]⟩) :=
  C8_outside_area_detection_preserved exampleStateExcludeAll exampleMsg exampleMsg
    recordingCamera excludeAllPolygon 0 "track1" ⟨[exampleDetection]⟩ exampleDetection
    540 960 rfl rfl
    (by norm_num [GeoMapper.get, getAux, exampleStateExcludeAll, exampleMsg,
      processTracklets, processTracklet, is_filtered, get_center, recordingCamera,
      excludeAllPolygon, exampleDetection, updateEntry, List.lookup])
    rfl rfl
    (by norm_num [get_center, recordingCamera, exampleDetection])
    rfl

end GeoMapperYQ

namespace GeoMapperYQ

/-- Claim C9: CONFIRMED.  One `get` call only ever writes the most
recently appended snapshot (`detections_info[-1]`) of each tracklet: for
every camera key and every tracklet position, the output tracklet keeps
the same track id, the same history length, and its earlier snapshots
(`dropLast`) are exactly the input's. -/
theorem C9_earlier_snapshots_unchanged
    (st : GeoMapperState) (msg out : SaeMessage)
    (hok : GeoMapper.get st msg = .ok out) :
    ∀ (c : String) (i : ℕ) (tid : String) (t : Tracklet),
      ((msg.trajectory.cameras.lookup c).getD ⟨[]⟩).tracklets[i]? = some (tid, t) →
      ∃ t', ((out.trajectory.cameras.lookup c).getD ⟨[]⟩).tracklets[i]? = some (tid, t') ∧
        t'.detections_info.dropLast = t.detections_info.dropLast ∧
        t'.detections_info.length = t.detections_info.length := by
  obtain ⟨cam, l', hcam, hpt, rfl⟩ := get_ok_elim hok
  intro c i tid t hi
  by_cases hc : c = msg.frame.source_id
  · subst hc
    obtain ⟨hlen, hidx⟩ := processTracklets_ok_idx hpt
    obtain ⟨t', h1, h2⟩ := hidx i tid t hi
    obtain ⟨hdl, hln⟩ := processTracklet_ok_preserves h1
    refine ⟨t', ?_, hdl, hln⟩
    simpa only [lookup_updateEntry_self, Option.getD_some] using h2
  · refine ⟨t, ?_, rfl, rfl⟩
    have : (updateEntry msg.frame.source_id (⟨l'⟩ : TrackletsByCamera)
        msg.trajectory.cameras).lookup c = msg.trajectory.cameras.lookup c :=
      lookup_updateEntry_ne _ _ _ hc _
    simpa only [this] using hi

/-- Claim C9 at a concrete input: the single-snapshot tracklet of the
returned message has the same (empty) earlier history and the same
length as the input's. -/
theorem C9_earlier_snapshots_unchanged_witness :
    ∃ t', ((annotatedExampleMsg.trajectory.cameras.lookup "stream1").getD
              ⟨[]⟩).tracklets[0]? = some ("track1", t') ∧
      t'.detections_info.dropLast = (⟨[exampleDetection]⟩ : Tracklet).detections_info.dropLast ∧
      t'.detections_info.length = (⟨[exampleDetection]⟩ : Tracklet).detections_info.length :=
  C9_earlier_snapshots_unchanged exampleStateNoArea exampleMsg annotatedExampleMsg
    (by norm_num [GeoMapper.get, getAux, exampleStateNoArea, exampleMsg, annotatedExampleMsg,
      processTracklets, processTracklet, is_filtered, get_center, recordingCamera,
      exampleDetection, annotatedDetection, updateEntry, List.lookup])
    "stream1" 0 "track1" ⟨[exampleDetection]⟩ rfl

/-- Claim C10: CONFIRMED.  The geo-coordinate write is atomic: the two
consecutive assignments of latitude and longitude (geomapper.py lines
73-74) have no failure point between them, so every snapshot of a
returned message either carries exactly its input geo-coordinate
(both components untouched) or has both components freshly written in
this pass — never exactly one of the two. -/
theorem C10_geo_coordinate_written_atomically
    (st : GeoMapperState) (msg out : SaeMessage)
    (hok : GeoMapper.get st msg = .ok out) :
    ∀ (c tid : String) (i j : ℕ) (t t' : Tracklet) (d d' : Detection),
      ((msg.trajectory.cameras.lookup c).getD ⟨[]⟩).tracklets[i]? = some (tid, t) →
      ((out.trajectory.cameras.lookup c).getD ⟨[]⟩).tracklets[i]? = some (tid, t') →
      t.detections_info[j]? = some d →
      t'.detections_info[j]? = some d' →
      d' = d ∨ ∃ lat lon : ℚ, d' = { d with geo_coordinate := some ⟨lat, lon⟩ } := by
  obtain ⟨cam, l', hcam, hpt, rfl⟩ := get_ok_elim hok
  intro c tid i j t t' d d' hi hi' hj hj'
  by_cases hc : c = msg.frame.source_id
  · subst hc
    obtain ⟨hlen, hidx⟩ := processTracklets_ok_idx hpt
    obtain ⟨t'', h1, h2⟩ := hidx i tid t hi
    simp only [lookup_updateEntry_self, Option.getD_some] at hi'
    rw [h2] at hi'
    cases (Prod.mk.injEq .. ▸ Option.some.inj hi').2
    exact processTracklet_ok_idx_det h1 j d d' hj hj'
  · left
    have : (updateEntry msg.frame.source_id (⟨l'⟩ : TrackletsByCamera)
        msg.trajectory.cameras).lookup c = msg.trajectory.cameras.lookup c :=
      lookup_updateEntry_ne _ _ _ hc _
    rw [this] at hi'
    rw [hi] at hi'
    cases (Prod.mk.injEq .. ▸ Option.some.inj hi').2
    rw [hj] at hj'
    exact (Option.some.inj hj').symm

/-- Claim C10 at a concrete input: the annotated snapshot of the returned
message is the input snapshot with both geo components written at once. -/
theorem C10_geo_coordinate_written_atomically_witness :
    annotatedDetection = exampleDetection ∨
    ∃ lat lon : ℚ,
      annotatedDetection = { exampleDetection with geo_coordinate := some ⟨lat, lon⟩ } :=
  C10_geo_coordinate_written_atomically exampleStateNoArea exampleMsg annotatedExampleMsg
    (by norm_num [GeoMapper.get, getAux, exampleStateNoArea, exampleMsg, annotatedExampleMsg,
      processTracklets, processTracklet, is_filtered, get_center, recordingCamera,
      exampleDetection, annotatedDetection, updateEntry, List.lookup])
    "stream1" "track1" 0 0 ⟨[exampleDetection]⟩ ⟨[annotatedDetection]⟩
    exampleDetection annotatedDetection rfl rfl rfl rfl

end GeoMapperYQ
